import Mathlib

/-!
Verification development for the Seline mockup generators: four Python
scripts that compose phone-frame UI mockups out of PIL drawing calls and
export one PNG each.  The drawing pipeline of each script is embedded as a
pure function producing the ordered list of drawing primitives issued to
the surface; font loading and the final export are modelled as explicit
parameters (a loader that may fail, a save oracle that may fail).
-/

namespace Seline

/-- A color as the scripts pass it to PIL: either an RGB triple of integers
or a hex string literal. -/
inductive Color where
  | rgb (r g b : Int)
  | hex (s : String)
deriving DecidableEq, Repr

/-- A resolved font handle: a truetype font at a path and size, or the
PIL default bitmap font that load_default returns. -/
inductive Font where
  | truetype (path : String) (size : Nat)
  | dflt
deriving DecidableEq, Repr

/-- One drawing primitive issued to the surface, coordinates of type a.
The fields mirror the PIL calls used by the scripts: rounded_rectangle,
line, text (with optional anchor) and ellipse. -/
inductive Prim (a : Type) where
  | rrect (x0 y0 x1 y1 : a) (radius : a) (fill : Option Color)
      (outline : Option Color) (width : Int)
  | line (x1 y1 x2 y2 : a) (color : Color) (width : Int)
  | text (x y : a) (s : String) (font : Font) (color : Color)
      (anchor : Option String)
  | ellipse (x0 y0 x1 y1 : a) (fill : Color)
deriving DecidableEq, Repr

/-- Translate a primitive by (dx, dy): every coordinate moves, every
non-geometric attribute (radius, colors, string, font, anchor, stroke
width) is unchanged. -/
def Prim.translate (dx dy : Int) : Prim Int → Prim Int
  | .rrect x0 y0 x1 y1 r f o w =>
      .rrect (x0 + dx) (y0 + dy) (x1 + dx) (y1 + dy) r f o w
  | .line x1 y1 x2 y2 c w => .line (x1 + dx) (y1 + dy) (x2 + dx) (y2 + dy) c w
  | .text x y s ft c anch => .text (x + dx) (y + dy) s ft c anch
  | .ellipse x0 y0 x1 y1 f => .ellipse (x0 + dx) (y0 + dy) (x1 + dx) (y1 + dy) f

/-- The corner radius carried by a primitive, if it is a rounded rectangle. -/
def Prim.radiusOf {a : Type} : Prim a → Option a
  | .rrect _ _ _ _ r _ _ _ => some r
  | _ => none

/-- External effects a run performs after drawing: saving the surface to a
path, and printing a line to standard output. -/
inductive Eff where
  | save (path : String)
  | prnt (s : String)
deriving DecidableEq, Repr

/-- The tail of every generator script: img.save(out) followed by
print(out).  If the save raises, the print never runs and the run fails;
there is no retry.  Returns the effect trace and the success status. -/
def runTail (saveOk : String → Bool) (out : String) : List Eff × Bool :=
  if saveOk out then ([Eff.save out, Eff.prnt out], true)
  else ([Eff.save out], false)

/-- Number of save effects in a trace. -/
def countSaves (tr : List Eff) : Nat :=
  (tr.filter fun e => match e with | .save _ => true | _ => false).length

/-- The lines printed in a trace, in order. -/
def printsOf (tr : List Eff) : List String :=
  tr.filterMap fun e => match e with | .prnt s => some s | _ => none

/-- The export contract of one generation run at output path out: the run
performs exactly one save, it is the first effect and targets out, the
printed lines are exactly [out] on success and nothing on failure, and the
run succeeds precisely when the save succeeded. -/
def exportContract (saveOk : String → Bool) (out : String) : Prop :=
  countSaves (runTail saveOk out).1 = 1 ∧
  (runTail saveOk out).1.head? = some (Eff.save out) ∧
  printsOf (runTail saveOk out).1 = (if saveOk out then [out] else []) ∧
  (runTail saveOk out).2 = saveOk out

end Seline

namespace Seline.MapsRedesign

/-! Embedding of src/.codex_mockups/generate_maps_redesign_mockup.py. -/

def bg : Color := .rgb 14 16 20
def card : Color := .rgb 22 26 33
def card2 : Color := .rgb 27 31 39
def border : Color := .rgb 49 57 69
def text : Color := .rgb 235 239 245
def muted : Color := .rgb 145 155 170
def accent : Color := .rgb 232 236 244
def accent_text : Color := .rgb 15 18 22
def chip_idle : Color := .rgb 36 41 50
def line : Color := .rgb 61 72 88

/-- The font path the script requests. -/
def sfPath : String := "/System/Library/Fonts/SFNSDisplay.ttf"

/-- The six font roles the script sets up. -/
structure Fonts where
  f_title : Font
  f_sub : Font
  f_h : Font
  f_b : Font
  f_sm : Font
  f_xs : Font
deriving DecidableEq, Repr

/-- Font setup of the script: a try block loading six truetype fonts; if
any load raises (modelled as the loader returning none) the except branch
assigns load_default to every role. -/
def fontSetup (tt : String → Nat → Option Font) : Fonts :=
  match tt sfPath 42, tt sfPath 22, tt sfPath 28, tt sfPath 20,
      tt sfPath 17, tt sfPath 14 with
  | some a, some b, some c, some d, some e, some f =>
      ⟨a, b, c, d, e, f⟩
  | _, _, _, _, _, _ =>
      ⟨Font.dflt, Font.dflt, Font.dflt, Font.dflt, Font.dflt, Font.dflt⟩

/-- All-fallback font assignment (every role is load_default). -/
def dfltFonts : Fonts :=
  ⟨Font.dflt, Font.dflt, Font.dflt, Font.dflt, Font.dflt, Font.dflt⟩

/-- The rr helper: d.rounded_rectangle(xy, radius=r, fill, outline, width).
The radius argument is forwarded to the rasterizer unchanged. -/
def rr (x0 y0 x1 y1 : Int) (r : Int) (fill : Option Color)
    (outline : Option Color) (width : Int) : Prim Int :=
  .rrect x0 y0 x1 y1 r fill outline width

/-- Tab labels of the phone builder's tab bar. -/
def tabLabels : List String := ["Saved", "People", "Timeline"]

/-- Tab chip center x positions, derived from the frame origin. -/
def tabXs (x0 : Int) : List Int := [x0 + 168, x0 + 270, x0 + 382]

/-- The tab loop of the phone builder (lines 52-58): for each label and
center, draw the accent pill iff the label equals selected_tab, then the
label text in the contrast color. -/
def tabChips (F : Fonts) (x0 y0 : Int) (selected_tab : String) : List (Prim Int) :=
  (tabLabels.zip (tabXs x0)).flatMap fun lc =>
    (if lc.1 == selected_tab then
      [rr (lc.2 - 54) (y0 + 76) (lc.2 + 54) (y0 + 114) 19 (some accent) none 1]
     else []) ++
    [Prim.text lc.2 (y0 + 95) lc.1 F.f_sm
      (if lc.1 == selected_tab then accent_text else muted) (some "mm")]

/-- Whether a primitive is a tab chip drawn in the selected (accent fill)
state. -/
def isSelChip : Prim Int → Bool
  | .rrect _ _ _ _ _ (some f) _ _ => f == accent
  | _ => false

/-- Number of selected-state chips among a list of primitives. -/
def selCount (ps : List (Prim Int)) : Nat := (ps.filter isSelChip).length

/-- The phone builder: outer shell, dynamic island, header bar with left
button, search button, center tab bar, then the title.  Returns the drawn
primitives together with the value the Python function returns, which is
the pair (pw, ph) = (540, 860) only. -/
def phone (F : Fonts) (x0 y0 : Int) (title selected_tab : String) :
    List (Prim Int) × (Int × Int) :=
  let pw : Int := 540
  let ph : Int := 860
  ([rr x0 y0 (x0 + pw) (y0 + ph) 34 (some (.rgb 9 11 15)) (some (.rgb 44 50 62)) 2,
    rr (x0 + 205) (y0 + 18) (x0 + 335) (y0 + 34) 8 (some (.rgb 4 5 7)) none 1,
    rr (x0 + 22) (y0 + 54) (x0 + pw - 22) (y0 + 136) 24 (some card) (some border) 2,
    rr (x0 + 36) (y0 + 72) (x0 + 88) (y0 + 118) 12 (some chip_idle) none 1,
    Prim.text (x0 + 56) (y0 + 84) "≡" F.f_b text (some "mm"),
    rr (x0 + pw - 88) (y0 + 72) (x0 + pw - 36) (y0 + 118) 12 (some chip_idle) none 1,
    Prim.text (x0 + pw - 62) (y0 + 94) "⌕" F.f_b text (some "mm"),
    rr (x0 + 108) (y0 + 72) (x0 + pw - 108) (y0 + 118) 23 (some (.rgb 32 36 45))
      (some (.rgb 52 58 72)) 1] ++
   tabChips F x0 y0 selected_tab ++
   [Prim.text (x0 + 30) (y0 + 165) title F.f_h text none],
   (pw, ph))

/-- The stat_pills loop body: a cursor x starts at x0 and advances by 162
after each pill; each pill is a rounded rect and two text lines. -/
def stat_pillsAux (F : Fonts) (y0 : Int) : Int → List (String × String) → List (Prim Int)
  | _, [] => []
  | x, (l1, l2) :: rest =>
      [rr x y0 (x + 150) (y0 + 78) 16 (some card2) (some (.rgb 45 52 64)) 1,
       Prim.text (x + 14) (y0 + 17) l1 F.f_xs muted none,
       Prim.text (x + 14) (y0 + 43) l2 F.f_b text none] ++
      stat_pillsAux F y0 (x + 162) rest

/-- The stat_pills builder. -/
def stat_pills (F : Fonts) (x0 y0 : Int) (labels : List (String × String)) :
    List (Prim Int) :=
  stat_pillsAux F y0 x0 labels

/-- The two title lines of the mockup. -/
def header (F : Fonts) : List (Prim Int) :=
  [Prim.text 42 26 "Seline Maps Redesign (3 Tabs Restored, Same Placement)"
    F.f_title text none,
   Prim.text 42 76
    "Concept: Keep Saved / People / Timeline as primary pages, modernize cards + cross-page drill-down"
    F.f_sub muted none]

/-- The folder rows of Screen 1. -/
def folderItems : List (String × Int) :=
  [("Home", 11), ("Work", 7), ("Food & Dining", 9), ("Travel", 5)]

/-- Screen 1 (Saved): phone frame, current-location card, stat pills,
mini map with fake map lines and markers, and the folders card. -/
def screen1 (F : Fonts) (x1 y : Int) : List (Prim Int) :=
  let pr := phone F x1 y "Saved Locations" "Saved"
  let pw := pr.2.1
  pr.1 ++
  [rr (x1 + 24) (y + 198) (x1 + pw - 24) (y + 268) 18 (some card) (some border) 1,
   Prim.text (x1 + 40) (y + 216) "Current location" F.f_xs muted none,
   Prim.text (x1 + 40) (y + 240) "Home · 3h 42m" F.f_b (.rgb 95 220 130) none,
   Prim.text (x1 + pw - 44) (y + 236) "Open" F.f_xs accent_text (some "mm"),
   rr (x1 + pw - 86) (y + 218) (x1 + pw - 26) (y + 252) 14 (some accent) none 1] ++
  stat_pills F (x1 + 24) (y + 282)
    [("Saved", "32"), ("Favorites", "8"), ("Active today", "4")] ++
  [rr (x1 + 24) (y + 372) (x1 + pw - 24) (y + 520) 20 (some card) (some border) 1,
   Prim.text (x1 + 42) (y + 392) "Map Snapshot" F.f_sm text none,
   Prim.text (x1 + 42) (y + 416) "Tap cluster to open folder list" F.f_xs muted none] ++
  ((List.range 6).map fun (i : Nat) =>
    Prim.line (x1 + 44 + (i : Int) * 70) (y + 452) (x1 + 72 + (i : Int) * 70)
      (y + 488) line 2) ++
  ([(x1 + 130, y + 454), (x1 + 240, y + 478), (x1 + 325, y + 440),
    (x1 + 420, y + 490)].flatMap fun pp =>
    [rr (pp.1 - 8) (pp.2 - 8) (pp.1 + 8) (pp.2 + 8) 8 (some (.rgb 220 80 80)) none 1,
     rr (pp.1 - 3) (pp.2 - 3) (pp.1 + 3) (pp.2 + 3) 3 (some (.rgb 250 240 240)) none 1]) ++
  [rr (x1 + 24) (y + 534) (x1 + pw - 24) (y + 816) 20 (some card) (some border) 1,
   Prim.text (x1 + 42) (y + 554) "Folders" F.f_sm text none] ++
  (folderItems.enum.flatMap fun ic =>
    let yy := y + 584 + (ic.1 : Int) * 54
    [rr (x1 + 40) yy (x1 + pw - 40) (yy + 42) 12 (some card2) none 1,
     Prim.text (x1 + 54) (yy + 21) ic.2.1 F.f_xs text (some "lm"),
     Prim.text (x1 + pw - 58) (yy + 21) (toString ic.2.2) F.f_xs muted (some "rm")])

/-- The grouped people rows of Screen 2. -/
def peopleRows : List (String × String) :=
  [("FAMILY · 8", "Mom, Dad, Sister"),
   ("FRIENDS · 14", "Sujus, Ragulan, Amaan"),
   ("WORK · 9", "Manager, Team Lead"),
   ("OTHER · 15", "Dentist, Trainer, Barber")]

/-- The relation-group row loop of Screen 2: a cursor yy advances by 92
after each group row. -/
def peopleRowsAux (F : Fonts) (x2 : Int) : Int → List (String × String) → List (Prim Int)
  | _, [] => []
  | yy, (g, names) :: rest =>
      [Prim.text (x2 + 42) yy g F.f_xs muted none,
       rr (x2 + 40) (yy + 20) (x2 + 500) (yy + 62) 12 (some card2) none 1,
       Prim.text (x2 + 52) (yy + 42) names F.f_xs text (some "lm"),
       Prim.text (x2 + 486) (yy + 42) "↗ timeline" F.f_xs (.rgb 180 190 205) (some "rm")] ++
      peopleRowsAux F x2 (yy + 92) rest

/-- Screen 2 (People): phone frame, stat pills, frequent-together card and
chips, and the grouped people list. -/
def screen2 (F : Fonts) (x2 y : Int) : List (Prim Int) :=
  (phone F x2 y "People" "People").1 ++
  stat_pills F (x2 + 24) (y + 198)
    [("People", "46"), ("With visits", "31"), ("New month", "5")] ++
  [rr (x2 + 24) (y + 288) (x2 + 540 - 24) (y + 390) 20 (some card) (some border) 1,
   Prim.text (x2 + 42) (y + 308) "Frequent Together" F.f_sm text none] ++
  ([("Sujus", 18), ("Liliana", 12), ("Ragulan", 10)].enum.flatMap fun ic =>
    let xx := x2 + 42 + (ic.1 : Int) * 160
    [rr xx (y + 334) (xx + 148) (y + 374) 12 (some card2) none 1,
     Prim.text (xx + 12) (y + 348) ic.2.1 F.f_xs text none,
     Prim.text (xx + 12) (y + 364) (toString (ic.2.2 : Int) ++ " visits") F.f_xs muted none]) ++
  [rr (x2 + 24) (y + 406) (x2 + 540 - 24) (y + 816) 20 (some card) (some border) 1,
   Prim.text (x2 + 42) (y + 426) "People List" F.f_sm text none] ++
  peopleRowsAux F x2 (y + 454) peopleRows

/-- The six days of the mini week strip of Screen 3. -/
def weekDays : List String := ["M 17", "T 18", "W 19", "T 20", "F 21", "S 22"]

/-- The visit rows of Screen 3: time, place, meta. -/
def visit_rows : List (String × String × String) :=
  [("9:12 AM", "Home", "with Sujus · note added"),
   ("11:30 AM", "RBC Office", "with Team · 2h 10m"),
   ("2:05 PM", "Mos Mos Coffee", "solo · quick stop"),
   ("6:15 PM", "GoodLife Gym", "with Ragulan · workout")]

/-- The visit-row loop of Screen 3: a cursor yy advances by 98 after each
visit card of height 88. -/
def visitRowsAux (F : Fonts) (x3 : Int) : Int → List (String × String × String) → List (Prim Int)
  | _, [] => []
  | yy, (t, p, meta) :: rest =>
      [rr (x3 + 40) yy (x3 + 500) (yy + 88) 14 (some card2) none 1,
       Prim.text (x3 + 54) (yy + 18) t F.f_xs muted none,
       Prim.text (x3 + 54) (yy + 42) p F.f_b text none,
       Prim.text (x3 + 54) (yy + 64) meta F.f_xs muted none,
       Prim.text (x3 + 486) (yy + 42) "•••" F.f_sm muted (some "rm")] ++
      visitRowsAux F x3 (yy + 98) rest

/-- Screen 3 (Timeline): phone frame, day card, mini week strip, and the
visits card with four visit rows. -/
def screen3 (F : Fonts) (x3 y : Int) : List (Prim Int) :=
  (phone F x3 y "Timeline" "Timeline").1 ++
  [rr (x3 + 24) (y + 198) (x3 + 540 - 24) (y + 258) 16 (some card) (some border) 1,
   Prim.text (x3 + 42) (y + 218) "Thursday, Feb 20" F.f_sm text none,
   Prim.text (x3 + 42) (y + 240) "6 visits · 5h 24m" F.f_xs muted none,
   rr (x3 + 24) (y + 272) (x3 + 540 - 24) (y + 328) 16 (some card) (some border) 1] ++
  (weekDays.enum.flatMap fun ic =>
    let xx := x3 + 40 + (ic.1 : Int) * 79
    let sel := ic.2 == "T 20"
    [rr xx (y + 284) (xx + 68) (y + 316) 12 (some (if sel then accent else chip_idle)) none 1,
     Prim.text (xx + 34) (y + 300) ic.2 F.f_xs (if sel then accent_text else muted) (some "mm")]) ++
  [rr (x3 + 24) (y + 342) (x3 + 540 - 24) (y + 816) 20 (some card) (some border) 1,
   Prim.text (x3 + 42) (y + 362) "Visits" F.f_sm text none] ++
  visitRowsAux F x3 (y + 390) visit_rows

/-- The connected-UX recommendation panel at the bottom of the mockup. -/
def uxPanel (F : Fonts) : List (Prim Int) :=
  [rr 36 900 1764 964 16 (some (.rgb 18 22 28)) (some (.rgb 55 63 77)) 1,
   Prim.text 52 914
    "Connected UX recommendations: 1) Tap folder in Saved -> auto-filter Timeline to that folder + date chips. 2) Tap person in People -> open Timeline prefiltered to \"with this person\"."
    F.f_xs (.rgb 185 195 210) none,
   Prim.text 52 938
    "3) From Timeline visit card: one-tap actions -> Add/Edit notes, Link people, Open place detail. 4) Keep swipe-back on all drill-down pages, but keep these 3 tabs pinned in the same top position."
    F.f_xs (.rgb 185 195 210) none]

/-- The whole drawing pipeline of the script, in draw-call order, as a
function of the resolved fonts: header, the three screens at their literal
origins (36,106), (630,106), (1224,106), and the UX panel. -/
def modulePrims (F : Fonts) : List (Prim Int) :=
  header F ++ screen1 F 36 106 ++ screen2 F 630 106 ++ screen3 F 1224 106 ++
  uxPanel F

/-- The ambient inputs a run can observe: whether truetype font loading
succeeds, and whether a save to a given path succeeds.  The script reads
nothing else from its environment (no arguments, randomness or clock). -/
structure Env where
  fontOk : Bool
  saveOk : String → Bool

/-- The loader outcome as a function of font availability. -/
def loaderOf (fontOk : Bool) : String → Nat → Option Font :=
  fun p s => if fontOk then some (Font.truetype p s) else none

/-- The surface content (ordered draw calls) a run produces in a given
environment. -/
def surface (e : Env) : List (Prim Int) :=
  modulePrims (fontSetup (loaderOf e.fontOk))

/-- The fixed output path of the script. -/
def outPath : String :=
  "/Users/alishahamin/Desktop/Vibecode/Seline/.codex_mockups/maps_redesign_3tabs_mockup.png"

/-- The sequence of vertical cursor positions of a loop that starts its
cursor at a value and advances it by a fixed stride after each item, as
the visit-row and people-row loops do. -/
def rowYsAux (stride : Int) : Int → Nat → List Int
  | _, 0 => []
  | yy, n + 1 => yy :: rowYsAux stride (yy + stride) n

/-- Closed form of a row series: the i-th row sits at s + i * k. -/
def rowYs (s k : Int) (n : Nat) : List Int :=
  (List.range n).map fun (i : Nat) => s + (i : Int) * k

/-- Two rows of height h at vertical positions a and b do not overlap:
their half-open pixel spans [a, a+h) and [b, b+h) are disjoint. -/
def rowFree (h a b : Int) : Prop := a + h ≤ b ∨ b + h ≤ a

/-- All rows of height h at the given positions are pairwise
non-overlapping. -/
def nonOverlapping (h : Int) (ys : List Int) : Prop := ys.Pairwise (rowFree h)

/-- The vertical positions of the four visit rows of Screen 3: the cursor
starts at y + 390 and advances by 98 per row. -/
def visitRowYs (y : Int) : List Int := rowYsAux 98 (y + 390) visit_rows.length

/-- The vertical positions of the four folder rows of Screen 1: the i-th
row sits at y + 584 + i * 54. -/
def folderRowYs (y : Int) : List Int :=
  (List.range folderItems.length).map fun (i : Nat) => y + 584 + (i : Int) * 54

end Seline.MapsRedesign

namespace Seline.MapsFlow

/-! Embedding of src/.codex_mockups/generate_maps_flow_mockup.py.  The
arrowhead endpoints involve cosines and sines, so this script's surface is
modelled with real-valued coordinates. -/

/-- The font path the script requests. -/
def sfPath : String := "/System/Library/Fonts/SFNSDisplay.ttf"

/-- The four font roles: title 44, heading 28, body 22, small 18. -/
structure Fonts where
  ft : Font
  fh : Font
  fb : Font
  fs : Font
deriving DecidableEq, Repr

/-- Font setup: a try block loading the four truetype fonts; if any load
raises (loader returns none) the except branch assigns load_default to all
four roles. -/
def fontSetup (tt : String → Nat → Option Font) : Fonts :=
  match tt sfPath 44, tt sfPath 28, tt sfPath 22, tt sfPath 18 with
  | some a, some b, some c, some d => ⟨a, b, c, d⟩
  | _, _, _, _ => ⟨Font.dflt, Font.dflt, Font.dflt, Font.dflt⟩

/-- All-fallback font assignment. -/
def dfltFonts : Fonts := ⟨Font.dflt, Font.dflt, Font.dflt, Font.dflt⟩

/-- The rr helper of this script; the radius argument is forwarded to the
rasterizer unchanged. -/
def rr (x0 y0 x1 y1 : ℝ) (r : ℝ) (fill : Option Color)
    (outline : Option Color) (width : Int) : Prim ℝ :=
  .rrect x0 y0 x1 y1 r fill outline width

/-- Two-argument arctangent as the script uses it: the angle of the point
(x, y), i.e. the argument of the complex number x + y*i. -/
noncomputable def atan2 (y x : ℝ) : ℝ := Complex.arg ⟨x, y⟩

/-- The arrow helper: the straight line from (x1,y1) to (x2,y2), then two
segments of length l = 12 from (x2,y2) at angles ang + 2.6 and ang - 2.6,
where ang = atan2(y2-y1, x2-x1). -/
noncomputable def arrow (x1 y1 x2 y2 : ℝ) (c : Color) (w : Int) : List (Prim ℝ) :=
  let ang := atan2 (y2 - y1) (x2 - x1)
  let l : ℝ := 12
  let a1 := ang + 2.6
  let a2 := ang - 2.6
  [Prim.line x1 y1 x2 y2 c w,
   Prim.line x2 y2 (x2 + l * Real.cos a1) (y2 + l * Real.sin a1) c w,
   Prim.line x2 y2 (x2 + l * Real.cos a2) (y2 + l * Real.sin a2) c w]

/-- Squared Euclidean distance between (px,py) and (qx,qy). -/
def len2 (px py qx qy : ℝ) : ℝ := (qx - px) ^ 2 + (qy - py) ^ 2

/-- Default arrow color of the script. -/
def arrowColor : Color := .rgb 96 110 130

/-- White card fill and default card outline of the script's rr helper. -/
def cardFill : Color := .rgb 255 255 255

def cardOutline : Color := .rgb 210 214 220

/-- Bullet lines of the Saved node. -/
def savedBullets : List String :=
  ["• Folder cards + mini map + current location",
   "• Tap folder -> open filtered timeline",
   "• Tap place -> place detail + visit history",
   "• Long press place -> rename/move/favorite"]

/-- Bullet lines of the People node. -/
def peopleBullets : List String :=
  ["• Grouped list (Family/Friends/Work/Custom)",
   "• Tap person -> profile + linked places",
   "• Quick chip: \"Show visits with this person\"",
   "• Favorites row for one-tap access"]

/-- Bullet lines of the Timeline node. -/
def timelineBullets : List String :=
  ["• Calendar strip + day timeline cards",
   "• Card actions: notes, people, merge, delete",
   "• Filter chips: Folder, Person, Date range",
   "• Swipe-back from all detail screens"]

/-- Lines of the shared context layer. -/
def sharedLines : List String :=
  ["1) Unified filter state: selected folder / selected person / selected date persists across tab changes.",
   "2) Location visit events auto-refresh Timeline and subtly update Saved + People badges in real time.",
   "3) Person-place linkage: from a timeline visit, attach people; reflected in both person profile and folder analytics."]

/-- Lines of the drill-down layer. -/
def drillLines : List String :=
  ["• Place Detail: map preview, visit streaks, spend/notes links, related people.",
   "• Person Detail: relationship, upcoming dates, places visited together, timeline shortcut.",
   "• Day Detail: full timeline cards, AI day summary, merge mode, edit notes/people inline."]

/-- One node card of the flow diagram: white rounded rect, a heading, and
four bullet lines at vertical stride 34 from y 250. -/
def nodeCard (F : Fonts) (x0 x1 tx : ℝ) (heading : String)
    (bullets : List String) : List (Prim ℝ) :=
  [rr x0 170 x1 400 18 (some cardFill) (some cardOutline) 2,
   Prim.text tx 196 heading F.fh (.rgb 17 24 39) none] ++
  (bullets.enum.map fun it =>
    Prim.text tx (250 + (it.1 : ℝ) * 34) it.2 F.fs (.rgb 71 85 105) none)

/-- The whole drawing pipeline of the flow script, in draw-call order:
header texts, the three node cards, the top-row arrows, the shared context
layer, the drill-down layer, and the arrows into the shared layer. -/
noncomputable def modulePrims (F : Fonts) : List (Prim ℝ) :=
  [Prim.text 40 26 "Maps 3-Page UX Flow (Saved / People / Timeline)" F.ft
    (.rgb 20 24 31) none,
   Prim.text 40 84
    "Keep tabs pinned in top center; use contextual deep-links so pages feel connected, not isolated."
    F.fs (.rgb 92 102 119) none] ++
  nodeCard F 70 520 96 "Saved Locations" savedBullets ++
  nodeCard F 560 1030 586 "People" peopleBullets ++
  nodeCard F 1070 1530 1096 "Timeline" timelineBullets ++
  arrow 520 280 560 280 arrowColor 3 ++
  arrow 1030 280 1070 280 arrowColor 3 ++
  arrow 1070 330 520 330 arrowColor 3 ++
  [rr 200 480 1410 640 18 (some (.rgb 243 246 252)) (some (.rgb 188 199 216)) 2,
   Prim.text 230 510 "Shared Context Layer (cross-page glue)" F.fb
    (.rgb 30 41 59) none] ++
  (sharedLines.enum.map fun it =>
    Prim.text 230 (550 + (it.1 : ℝ) * 30) it.2 F.fs (.rgb 51 65 85) none) ++
  [rr 70 700 1530 850 18 (some cardFill) (some cardOutline) 2,
   Prim.text 96 726 "Recommended drill-down pages (full screen + back swipe)"
    F.fb (.rgb 17 24 39) none] ++
  (drillLines.enum.map fun it =>
    Prim.text 96 (764 + (it.1 : ℝ) * 28) it.2 F.fs (.rgb 71 85 105) none) ++
  arrow 295 400 420 480 arrowColor 3 ++
  arrow 790 400 800 480 arrowColor 3 ++
  arrow 1300 400 1180 480 arrowColor 3

/-- The ambient inputs of a flow-script run: font availability and save
success; the script reads nothing else from its environment. -/
structure Env where
  fontOk : Bool
  saveOk : String → Bool

/-- The loader outcome as a function of font availability. -/
def loaderOf (fontOk : Bool) : String → Nat → Option Font :=
  fun p s => if fontOk then some (Font.truetype p s) else none

/-- The surface content (ordered draw calls) a run produces in a given
environment. -/
noncomputable def surface (e : Env) : List (Prim ℝ) :=
  modulePrims (fontSetup (loaderOf e.fontOk))

/-- The fixed output path of the script. -/
def outPath : String :=
  "/Users/alishahamin/Desktop/Vibecode/Seline/.codex_mockups/maps_redesign_flow_mockup.png"

end Seline.MapsFlow

namespace Seline.EmailA

/-! Embedding of src/.codex_mockups/generate_email_redesign_mockups.py
(the parts the claims are about: font setup, the phone builder and its
return value, the smart-reply chips with centered text, and the export
path). -/

def arialBoldPath : String := "/System/Library/Fonts/Supplemental/Arial Bold.ttf"

def arialPath : String := "/System/Library/Fonts/Supplemental/Arial.ttf"

/-- The five font roles of the script. -/
structure Fonts where
  f_title : Font
  f_sub : Font
  f_body : Font
  f_small : Font
  f_h3 : Font
deriving DecidableEq, Repr

/-- Font setup: a try block loading five truetype fonts from two families;
if any load raises, the except branch assigns load_default to all five. -/
def fontSetup (tt : String → Nat → Option Font) : Fonts :=
  match tt arialBoldPath 40, tt arialPath 22, tt arialPath 18,
      tt arialPath 15, tt arialBoldPath 24 with
  | some a, some b, some c, some d, some e => ⟨a, b, c, d, e⟩
  | _, _, _, _, _ => ⟨Font.dflt, Font.dflt, Font.dflt, Font.dflt, Font.dflt⟩

/-- All-fallback font assignment. -/
def dfltFonts : Fonts := ⟨Font.dflt, Font.dflt, Font.dflt, Font.dflt, Font.dflt⟩

def WHITE : Color := .hex "#F3F4F6"

/-- The phone builder: shell, notch, optional title.  Returns the drawn
primitives together with the tuple (x, y, w, h) the Python function
returns. -/
def phone (f_h3 : Font) (x y w h : Int) (title : String) :
    List (Prim Int) × (Int × Int × Int × Int) :=
  ([Prim.rrect x y (x + w) (y + h) 48 (some (.hex "#0f1115")) (some (.hex "#2b2f36")) 3,
    Prim.rrect (x + 170) (y + 20) (x + w - 170) (y + 54) 16 (some (.hex "#08090b")) none 1] ++
   (if title ≠ "" then [Prim.text (x + 24) (y + 72) title f_h3 WHITE none] else []),
   (x, y, w, h))

/-- The smart-reply chip rect of the thread-detail screen: the chip at
horizontal position xx and vertical position yy spans xx .. xx + 209. -/
def chipRect (xx yy : ℚ) : ℚ × ℚ × ℚ × ℚ := (xx, yy, xx + 209, yy + 44)

/-- Horizontal center of a rect (x0, y0, x1, y1). -/
def centerX (r : ℚ × ℚ × ℚ × ℚ) : ℚ := (r.1 + r.2.2.1) / 2

/-- The left offset the script computes for a centered chip label:
xx + (209 - tw) / 2, where tw is the measured text width
d.textlength(c, font=f_small). -/
def chipTextX (xx tw : ℚ) : ℚ := xx + (209 - tw) / 2

/-- The fixed output path of the script. -/
def outPath : String :=
  "/Users/alishahamin/Desktop/Vibecode/Seline/.codex_mockups/email_redesign_mockups.png"

end Seline.EmailA

namespace Seline.EmailB

/-! Embedding of
src/.codex_mockups/generate_email_redesign_keep_sidebar_calendar.py (the
parts the claims are about: font setup, the phone builder and its return
value, the smart-reply rows with centered text, and the export path). -/

def arialBoldPath : String := "/System/Library/Fonts/Supplemental/Arial Bold.ttf"

def arialPath : String := "/System/Library/Fonts/Supplemental/Arial.ttf"

/-- The five font roles of the script. -/
structure Fonts where
  f_title : Font
  f_sub : Font
  f_h : Font
  f_b : Font
  f_s : Font
deriving DecidableEq, Repr

/-- Font setup: a try block loading five truetype fonts from two families;
if any load raises, the except branch assigns load_default to all five. -/
def fontSetup (tt : String → Nat → Option Font) : Fonts :=
  match tt arialBoldPath 42, tt arialPath 22, tt arialBoldPath 26,
      tt arialPath 18, tt arialPath 15 with
  | some a, some b, some c, some d, some e => ⟨a, b, c, d, e⟩
  | _, _, _, _, _ => ⟨Font.dflt, Font.dflt, Font.dflt, Font.dflt, Font.dflt⟩

/-- All-fallback font assignment. -/
def dfltFonts : Fonts := ⟨Font.dflt, Font.dflt, Font.dflt, Font.dflt, Font.dflt⟩

def WHITE : Color := .hex "#F4F5F7"

def BLACK : Color := .hex "#090A0C"

/-- The phone builder: shell, notch, optional label.  Returns the drawn
primitives together with the tuple (x, y, w, h) the Python function
returns. -/
def phone (f_h : Font) (x y w h : Int) (label : String) :
    List (Prim Int) × (Int × Int × Int × Int) :=
  ([Prim.rrect x y (x + w) (y + h) 52 (some (.hex "#0f1218")) (some (.hex "#313748")) 3,
    Prim.rrect (x + 190) (y + 20) (x + w - 190) (y + 54) 15 (some BLACK) none 1] ++
   (if label ≠ "" then [Prim.text (x + 24) (y + 74) label f_h WHITE none] else []),
   (x, y, w, h))

/-- The smart-reply chip rect of the thread-detail screen: the chip at
horizontal position xx and row top yy spans xx .. xx + 234. -/
def replyRect (xx yy : ℚ) : ℚ × ℚ × ℚ × ℚ := (xx, yy, xx + 234, yy + 50)

/-- Horizontal center of a rect (x0, y0, x1, y1). -/
def centerX (r : ℚ × ℚ × ℚ × ℚ) : ℚ := (r.1 + r.2.2.1) / 2

/-- The left offset the script computes for a centered reply label:
xx + (234 - tw) / 2, where tw is the measured text width
d.textlength(text, font=f_s). -/
def replyTextX (xx tw : ℚ) : ℚ := xx + (234 - tw) / 2

/-- The fixed output path of the script. -/
def outPath : String :=
  "/Users/alishahamin/Desktop/Vibecode/Seline/.codex_mockups/email_redesign_keep_sidebar_calendar.png"

end Seline.EmailB

namespace Seline

/-! Theorems. -/

/-- Helper: the export tail of any run satisfies the export contract. -/
theorem exportContract_holds (saveOk : String → Bool) (out : String) :
    exportContract saveOk out := by
  unfold exportContract runTail countSaves printsOf
  cases h : saveOk out <;> simp [h]

/-- C5: for every centered text draw of the smart-reply chips, the
computed left offset equals the chip's horizontal center minus half the
measured string width; since this holds for an arbitrary measuring
function, it holds for any two distinct font sizes. -/
theorem c5_centered_text (xx yy : ℚ) (measure : Font → String → ℚ)
    (f1 f2 : Font) (c : String) :
    EmailA.chipTextX xx (measure f1 c)
      = EmailA.centerX (EmailA.chipRect xx yy) - measure f1 c / 2 ∧
    EmailA.chipTextX xx (measure f2 c)
      = EmailA.centerX (EmailA.chipRect xx yy) - measure f2 c / 2 ∧
    EmailB.replyTextX xx (measure f1 c)
      = EmailB.centerX (EmailB.replyRect xx yy) - measure f1 c / 2 ∧
    EmailB.replyTextX xx (measure f2 c)
      = EmailB.centerX (EmailB.replyRect xx yy) - measure f2 c / 2 := by
  refine ⟨?_, ?_, ?_, ?_⟩ <;>
    simp [EmailA.chipTextX, EmailA.centerX, EmailA.chipRect,
      EmailB.replyTextX, EmailB.centerX, EmailB.replyRect] <;> ring

/-- C7: every generation run performs exactly one export: the single save
is the first effect, targets the script's fixed literal path, that same
path is the only printed line on success and nothing is printed on
failure, and the run succeeds exactly when the save does. -/
theorem c7_export_once (saveOk : String → Bool) :
    exportContract saveOk MapsFlow.outPath ∧
    exportContract saveOk MapsRedesign.outPath ∧
    exportContract saveOk EmailA.outPath ∧
    exportContract saveOk EmailB.outPath :=
  ⟨exportContract_holds _ _, exportContract_holds _ _,
   exportContract_holds _ _, exportContract_holds _ _⟩

/-- C8: both rr helpers forward the corner radius to the rasterizer
unchanged, in particular when the radius exceeds the smaller of the rect's
half-width and half-height. -/
theorem c8_radius_passthrough (x0 y0 x1 y1 r : Int)
    (hbig : min ((x1 - x0) / 2) ((y1 - y0) / 2) < r)
    (fill outline : Option Color) (w : Int)
    (a0 b0 a1 b1 rho : ℝ) (fl ol : Option Color) (w2 : Int) :
    (MapsRedesign.rr x0 y0 x1 y1 r fill outline w).radiusOf = some r ∧
    (MapsFlow.rr a0 b0 a1 b1 rho fl ol w2).radiusOf = some rho := by
  exact ⟨rfl, rfl⟩

/-- C1 counterexample: the maps-redesign phone builder does not return the
frame's origin.  Its return value is the same pair (540, 860) for two
calls with different origins, so no function of the return value recovers
the origin. -/
theorem c1_counterexample :
    (MapsRedesign.phone MapsRedesign.dfltFonts 36 106 "Saved Locations" "Saved").2
      = (MapsRedesign.phone MapsRedesign.dfltFonts 630 106 "People" "People").2 ∧
    ((36 : Int), (106 : Int)) ≠ ((630 : Int), (106 : Int)) ∧
    ¬ ∃ f : Int × Int → Int × Int, ∀ x0 y0 : Int,
        f (MapsRedesign.phone MapsRedesign.dfltFonts x0 y0 "T" "S").2 = (x0, y0) := by
  refine ⟨rfl, by decide, ?_⟩
  rintro ⟨f, hf⟩
  have h1 := hf 36 106
  have h2 := hf 630 106
  rw [show (MapsRedesign.phone MapsRedesign.dfltFonts 36 106 "T" "S").2
      = (540, 860) from rfl] at h1
  rw [show (MapsRedesign.phone MapsRedesign.dfltFonts 630 106 "T" "S").2
      = (540, 860) from rfl] at h2
  rw [h1] at h2
  exact absurd h2 (by decide)

/-- C1 amended: the two email phone builders return the frame's origin and
size (x, y, w, h); the maps-redesign phone builder returns only the size
(pw, ph) = (540, 860), and its callers position children from the origin
variable they themselves passed. -/
theorem c1_amended (F : MapsRedesign.Fonts) (fA fB : Font)
    (x0 y0 x y w h : Int) (t s ttl lbl : String) :
    (MapsRedesign.phone F x0 y0 t s).2 = (540, 860) ∧
    (EmailA.phone fA x y w h ttl).2 = (x, y, w, h) ∧
    (EmailB.phone fB x y w h lbl).2 = (x, y, w, h) :=
  ⟨rfl, rfl, rfl⟩

/-- C6: if truetype loading fails, every font setup falls back to the
default font for every role, and the failure is never surfaced: the setup
of the flow script is total, returning either the four loaded truetype
handles or the all-default assignment. -/
theorem c6_font_fallback (ld bad : String → Nat → Option Font)
    (hbad : ∀ p s, bad p s = none) :
    MapsFlow.fontSetup bad = MapsFlow.dfltFonts ∧
    MapsRedesign.fontSetup bad = MapsRedesign.dfltFonts ∧
    EmailA.fontSetup bad = EmailA.dfltFonts ∧
    EmailB.fontSetup bad = EmailB.dfltFonts ∧
    ((∃ a b c d, ld MapsFlow.sfPath 44 = some a ∧ ld MapsFlow.sfPath 28 = some b ∧
        ld MapsFlow.sfPath 22 = some c ∧ ld MapsFlow.sfPath 18 = some d ∧
        MapsFlow.fontSetup ld = ⟨a, b, c, d⟩) ∨
      MapsFlow.fontSetup ld = MapsFlow.dfltFonts) := by
  refine ⟨?_, ?_, ?_, ?_, ?_⟩
  · simp [MapsFlow.fontSetup, hbad, MapsFlow.dfltFonts]
  · simp [MapsRedesign.fontSetup, hbad, MapsRedesign.dfltFonts]
  · simp [EmailA.fontSetup, hbad, EmailA.dfltFonts]
  · simp [EmailB.fontSetup, hbad, EmailB.dfltFonts]
  · cases h44 : ld MapsFlow.sfPath 44 with
    | none => right; simp [MapsFlow.fontSetup, h44, MapsFlow.dfltFonts]
    | some a =>
      cases h28 : ld MapsFlow.sfPath 28 with
      | none => right; simp [MapsFlow.fontSetup, h44, h28, MapsFlow.dfltFonts]
      | some b =>
        cases h22 : ld MapsFlow.sfPath 22 with
        | none => right; simp [MapsFlow.fontSetup, h44, h28, h22, MapsFlow.dfltFonts]
        | some c =>
          cases h18 : ld MapsFlow.sfPath 18 with
          | none =>
            right; simp [MapsFlow.fontSetup, h44, h28, h22, h18, MapsFlow.dfltFonts]
          | some d =>
            left
            exact ⟨a, b, c, d, rfl, rfl, rfl, rfl, by
              simp [MapsFlow.fontSetup, h44, h28, h22, h18]⟩

/-- C6 witness: a loader that always fails is recovered into the
all-default assignments. -/
theorem c6_font_fallback_witness :
    MapsFlow.fontSetup (fun _ _ => none) = MapsFlow.dfltFonts ∧
    MapsRedesign.fontSetup (fun _ _ => none) = MapsRedesign.dfltFonts ∧
    EmailA.fontSetup (fun _ _ => none) = EmailA.dfltFonts ∧
    EmailB.fontSetup (fun _ _ => none) = EmailB.dfltFonts ∧
    ((∃ a b c d, (fun _ _ => none : String → Nat → Option Font) MapsFlow.sfPath 44 = some a ∧
        (fun _ _ => none : String → Nat → Option Font) MapsFlow.sfPath 28 = some b ∧
        (fun _ _ => none : String → Nat → Option Font) MapsFlow.sfPath 22 = some c ∧
        (fun _ _ => none : String → Nat → Option Font) MapsFlow.sfPath 18 = some d ∧
        MapsFlow.fontSetup (fun _ _ => none) = ⟨a, b, c, d⟩) ∨
      MapsFlow.fontSetup (fun _ _ => none) = MapsFlow.dfltFonts) :=
  c6_font_fallback (fun _ _ => none) (fun _ _ => none) (fun _ _ => rfl)

/-- Helper: a segment from (x2, y2) to
(x2 + 12 cos a, y2 + 12 sin a) has squared length 12 squared, whatever the
angle a. -/
theorem head_len2 (x2 y2 a : ℝ) :
    MapsFlow.len2 x2 y2 (x2 + 12 * Real.cos a) (y2 + 12 * Real.sin a) = 12 ^ 2 := by
  unfold MapsFlow.len2
  have h := Real.sin_sq_add_cos_sq a
  ring_nf
  nlinarith [h]

/-- C2: arrow(p1, p2) draws the straight line from p1 to p2 followed by
two head segments starting at p2 at angles theta + 2.6 and theta - 2.6,
where theta = atan2(y2 - y1, x2 - x1); each head segment has length
exactly 12 regardless of the distance between p1 and p2, and the two head
angles are symmetric about theta. -/
theorem c2_arrowhead (x1 y1 x2 y2 : ℝ) (c : Color) (w : Int) :
    MapsFlow.arrow x1 y1 x2 y2 c w =
      [Prim.line x1 y1 x2 y2 c w,
       Prim.line x2 y2
         (x2 + 12 * Real.cos (MapsFlow.atan2 (y2 - y1) (x2 - x1) + 2.6))
         (y2 + 12 * Real.sin (MapsFlow.atan2 (y2 - y1) (x2 - x1) + 2.6)) c w,
       Prim.line x2 y2
         (x2 + 12 * Real.cos (MapsFlow.atan2 (y2 - y1) (x2 - x1) - 2.6))
         (y2 + 12 * Real.sin (MapsFlow.atan2 (y2 - y1) (x2 - x1) - 2.6)) c w] ∧
    Real.sqrt (MapsFlow.len2 x2 y2
        (x2 + 12 * Real.cos (MapsFlow.atan2 (y2 - y1) (x2 - x1) + 2.6))
        (y2 + 12 * Real.sin (MapsFlow.atan2 (y2 - y1) (x2 - x1) + 2.6))) = 12 ∧
    Real.sqrt (MapsFlow.len2 x2 y2
        (x2 + 12 * Real.cos (MapsFlow.atan2 (y2 - y1) (x2 - x1) - 2.6))
        (y2 + 12 * Real.sin (MapsFlow.atan2 (y2 - y1) (x2 - x1) - 2.6))) = 12 ∧
    (MapsFlow.atan2 (y2 - y1) (x2 - x1) + 2.6) - MapsFlow.atan2 (y2 - y1) (x2 - x1)
      = -((MapsFlow.atan2 (y2 - y1) (x2 - x1) - 2.6)
          - MapsFlow.atan2 (y2 - y1) (x2 - x1)) := by
  refine ⟨rfl, ?_, ?_, by ring⟩
  · rw [head_len2]
    exact Real.sqrt_sq (by norm_num)
  · rw [head_len2]
    exact Real.sqrt_sq (by norm_num)

/-- C3: a row series with start offset s and stride k places the i-th of
n items at s + i * k, produces exactly n rows, and its rows of height h
(half-open pixel spans) are pairwise non-overlapping when the stride is at
least the row height and overlapping when it is smaller; the visit-row
loop (start y + 390, stride 98) and the folders loop (start y + 584,
stride 54) of the maps-redesign script are instances of this pattern. -/
theorem c3_row_series (s k h1 h2 y : Int) (n i : Nat)
    (hi : i < n) (hh1 : 0 < h1) (hk1 : h1 ≤ k) (hk0 : 0 ≤ k)
    (hh2 : k < h2) (hn : 2 ≤ n) :
    (MapsRedesign.rowYs s k n).length = n ∧
    (MapsRedesign.rowYs s k n)[i]? = some (s + (i : Int) * k) ∧
    MapsRedesign.nonOverlapping h1 (MapsRedesign.rowYs s k n) ∧
    ¬ MapsRedesign.nonOverlapping h2 (MapsRedesign.rowYs s k n) ∧
    MapsRedesign.visitRowYs y = MapsRedesign.rowYs (y + 390) 98 4 ∧
    MapsRedesign.folderRowYs y = MapsRedesign.rowYs (y + 584) 54 4 := by
  have hlen : (MapsRedesign.rowYs s k n).length = n := by
    unfold MapsRedesign.rowYs
    rw [List.length_map, List.length_range]
  refine ⟨hlen, ?_, ?_, ?_, ?_, ?_⟩
  · unfold MapsRedesign.rowYs
    rw [List.getElem?_map, List.getElem?_range hi]
    rfl
  · unfold MapsRedesign.nonOverlapping MapsRedesign.rowYs
    rw [List.pairwise_map]
    refine (List.pairwise_lt_range n).imp fun hab => ?_
    left
    rename_i a b
    have hab' : (a : Int) + 1 ≤ (b : Int) := by exact_mod_cast hab
    have hmul : ((a : Int) + 1) * k ≤ (b : Int) * k :=
      mul_le_mul_of_nonneg_right hab' hk0
    nlinarith [hmul]
  · intro hno
    unfold MapsRedesign.nonOverlapping MapsRedesign.rowYs at hno
    rw [List.pairwise_map, List.pairwise_iff_getElem] at hno
    have h01 := hno 0 1 (by simp; omega) (by simp; omega) (by omega)
    rw [List.getElem_range, List.getElem_range] at h01
    rcases h01 with h | h <;> push_cast at h <;> omega
  · simp [MapsRedesign.visitRowYs, MapsRedesign.visit_rows,
      MapsRedesign.rowYsAux, MapsRedesign.rowYs, List.range_succ]
    omega
  · simp [MapsRedesign.folderRowYs, MapsRedesign.folderItems,
      MapsRedesign.rowYs]

/-- C3 witness at the visit-row parameters: start 0, stride 98, row
height 88 (non-overlapping), a larger height 120 (overlapping), 4 rows. -/
theorem c3_row_series_witness :
    (MapsRedesign.rowYs 0 98 4).length = 4 ∧
    (MapsRedesign.rowYs 0 98 4)[(2 : Nat)]? = some (0 + ((2 : Nat) : Int) * 98) ∧
    MapsRedesign.nonOverlapping 88 (MapsRedesign.rowYs 0 98 4) ∧
    ¬ MapsRedesign.nonOverlapping 120 (MapsRedesign.rowYs 0 98 4) ∧
    MapsRedesign.visitRowYs 5 = MapsRedesign.rowYs (5 + 390) 98 4 ∧
    MapsRedesign.folderRowYs 5 = MapsRedesign.rowYs (5 + 584) 54 4 :=
  c3_row_series 0 98 88 120 5 4 2 (by decide) (by decide) (by decide)
    (by decide) (by decide) (by decide)

/-- Helper: for any selected_tab value, the number of accent-state chips
the tab loop draws equals the number of occurrences of that value among
the three labels, the loop always draws exactly three label texts plus the
accent pills, and that occurrence count is at most one. -/
theorem tabCount_spec (F : MapsRedesign.Fonts) (x0 y0 : Int) (sel : String) :
    MapsRedesign.selCount (MapsRedesign.tabChips F x0 y0 sel)
      = MapsRedesign.tabLabels.count sel ∧
    (MapsRedesign.tabChips F x0 y0 sel).length
      = 3 + MapsRedesign.tabLabels.count sel ∧
    MapsRedesign.tabLabels.count sel ≤ 1 := by
  by_cases h1 : sel = "Saved"
  · subst h1
    simp [MapsRedesign.tabChips, MapsRedesign.tabLabels, MapsRedesign.tabXs,
      MapsRedesign.selCount, MapsRedesign.isSelChip, MapsRedesign.rr,
      List.count, MapsRedesign.accent]
  by_cases h2 : sel = "People"
  · subst h2
    simp [MapsRedesign.tabChips, MapsRedesign.tabLabels, MapsRedesign.tabXs,
      MapsRedesign.selCount, MapsRedesign.isSelChip, MapsRedesign.rr,
      List.count, MapsRedesign.accent]
  by_cases h3 : sel = "Timeline"
  · subst h3
    simp [MapsRedesign.tabChips, MapsRedesign.tabLabels, MapsRedesign.tabXs,
      MapsRedesign.selCount, MapsRedesign.isSelChip, MapsRedesign.rr,
      List.count, MapsRedesign.accent]
  have n1 : ¬("Saved" : String) = sel := fun hs => h1 hs.symm
  have n2 : ¬("People" : String) = sel := fun hs => h2 hs.symm
  have n3 : ¬("Timeline" : String) = sel := fun hs => h3 hs.symm
  simp [MapsRedesign.tabChips, MapsRedesign.tabLabels, MapsRedesign.tabXs,
    MapsRedesign.selCount, MapsRedesign.isSelChip, MapsRedesign.rr,
    List.count, n1, n2, n3, MapsRedesign.accent]

/-- C9: in the phone builder's tab bar, at most one of the three chips is
drawn in the selected accent state, because the three labels are pairwise
distinct and selection is string equality with the single selected_tab
value; the loop always draws its three label texts, and a selected_tab
matching no label yields zero selected chips (and no error: the loop is
total). -/
theorem c9_tab_selection (F : MapsRedesign.Fonts) (x0 y0 : Int)
    (sel selOut : String) (hout : selOut ∉ MapsRedesign.tabLabels) :
    MapsRedesign.selCount (MapsRedesign.tabChips F x0 y0 sel)
      = MapsRedesign.tabLabels.count sel ∧
    MapsRedesign.tabLabels.count sel ≤ 1 ∧
    MapsRedesign.tabLabels.Nodup ∧
    (MapsRedesign.tabChips F x0 y0 sel).length
      = 3 + MapsRedesign.tabLabels.count sel ∧
    MapsRedesign.selCount (MapsRedesign.tabChips F x0 y0 selOut) = 0 := by
  obtain ⟨hc, hl, hle⟩ := tabCount_spec F x0 y0 sel
  obtain ⟨hc2, _, _⟩ := tabCount_spec F x0 y0 selOut
  refine ⟨hc, hle, by decide, hl, ?_⟩
  rw [hc2]
  exact List.count_eq_zero.mpr hout

/-- C9 witness: at origin (36, 106) with selected_tab Saved, and the
out-of-set value Maps yielding zero selected chips. -/
theorem c9_tab_selection_witness :
    MapsRedesign.selCount
        (MapsRedesign.tabChips MapsRedesign.dfltFonts 36 106 "Saved")
      = MapsRedesign.tabLabels.count "Saved" ∧
    MapsRedesign.tabLabels.count "Saved" ≤ 1 ∧
    MapsRedesign.tabLabels.Nodup ∧
    (MapsRedesign.tabChips MapsRedesign.dfltFonts 36 106 "Saved").length
      = 3 + MapsRedesign.tabLabels.count "Saved" ∧
    MapsRedesign.selCount
        (MapsRedesign.tabChips MapsRedesign.dfltFonts 36 106 "Maps") = 0 :=
  c9_tab_selection MapsRedesign.dfltFonts 36 106 "Saved" "Maps" (by decide)

/-- Helper: translating the frame origin translates every tab-bar
primitive. -/
theorem tabChips_translate (F : MapsRedesign.Fonts) (x0 y0 dx dy : Int)
    (sel : String) :
    MapsRedesign.tabChips F (x0 + dx) (y0 + dy) sel
      = (MapsRedesign.tabChips F x0 y0 sel).map (Prim.translate dx dy) := by
  simp only [MapsRedesign.tabChips, MapsRedesign.tabLabels, MapsRedesign.tabXs,
    MapsRedesign.rr, List.zip_cons_cons, List.zip_nil_right, List.zip_nil_left,
    List.flatMap_cons, List.flatMap_nil, List.map_append, List.map_cons,
    List.map_nil, apply_ite (List.map (Prim.translate dx dy)),
    Prim.translate, List.append_nil]
  ring_nf

/-- Helper: translating the origin translates every stat-pill primitive. -/
theorem stat_pillsAux_translate (F : MapsRedesign.Fonts) (y0 dx dy : Int) :
    ∀ (x : Int) (ls : List (String × String)),
      MapsRedesign.stat_pillsAux F (y0 + dy) (x + dx) ls
        = (MapsRedesign.stat_pillsAux F y0 x ls).map (Prim.translate dx dy) := by
  intro x ls
  induction ls generalizing x with
  | nil => rfl
  | cons hd tl ih =>
    obtain ⟨l1, l2⟩ := hd
    simp only [MapsRedesign.stat_pillsAux, MapsRedesign.rr, List.map_append,
      List.map_cons, List.map_nil, Prim.translate]
    rw [show x + dx + 162 = (x + 162) + dx by ring, ih (x + 162)]
    ring_nf

/-- Helper: translating the frame origin translates every phone-builder
primitive and leaves the returned size unchanged. -/
theorem phone_translate (F : MapsRedesign.Fonts) (x0 y0 dx dy : Int)
    (title sel : String) :
    (MapsRedesign.phone F (x0 + dx) (y0 + dy) title sel).1
      = ((MapsRedesign.phone F x0 y0 title sel).1).map (Prim.translate dx dy) ∧
    (MapsRedesign.phone F (x0 + dx) (y0 + dy) title sel).2
      = (MapsRedesign.phone F x0 y0 title sel).2 := by
  refine ⟨?_, rfl⟩
  simp only [MapsRedesign.phone, MapsRedesign.rr, List.map_append,
    List.map_cons, List.map_nil, Prim.translate]
  rw [tabChips_translate]
  ring_nf

/-- Helper: translating the origin of Screen 1 translates every one of
its primitives. -/
theorem screen1_translate (F : MapsRedesign.Fonts) (x1 y dx dy : Int) :
    MapsRedesign.screen1 F (x1 + dx) (y + dy)
      = (MapsRedesign.screen1 F x1 y).map (Prim.translate dx dy) := by
  have hpw : ∀ a b : Int,
      (MapsRedesign.phone F a b "Saved Locations" "Saved").2.1 = 540 :=
    fun a b => rfl
  simp only [MapsRedesign.screen1, MapsRedesign.stat_pills, List.map_append, hpw]
  rw [(phone_translate F x1 y dx dy "Saved Locations" "Saved").1]
  rw [show x1 + dx + 24 = (x1 + 24) + dx from by ring,
      show y + dy + 282 = (y + 282) + dy from by ring,
      stat_pillsAux_translate F (y + 282) dx dy (x1 + 24)]
  rw [show List.range 6 = [0, 1, 2, 3, 4, 5] from by decide]
  rw [show MapsRedesign.folderItems.enum
      = [(0, ("Home", (11 : Int))), (1, ("Work", 7)),
         (2, ("Food & Dining", 9)), (3, ("Travel", 5))] from rfl]
  simp only [List.flatMap_cons, List.flatMap_nil, List.map_cons, List.map_nil,
    List.map_append, List.append_nil, Prim.translate, MapsRedesign.rr]
  ring_nf

/-- C4: changing only the frame origin by (dx, dy) translates every
primitive of the phone builder and of the whole Screen 1 subtree by
exactly (dx, dy), leaving every non-geometric attribute and the builder's
return value unchanged: the frame subtree is pixel-identical up to the
origin delta, because every child coordinate is the origin plus a fixed
offset. -/
theorem c4_origin_translation (F : MapsRedesign.Fonts) (x0 y0 dx dy : Int)
    (title sel : String) :
    (MapsRedesign.phone F (x0 + dx) (y0 + dy) title sel).1
      = ((MapsRedesign.phone F x0 y0 title sel).1).map (Prim.translate dx dy) ∧
    (MapsRedesign.phone F (x0 + dx) (y0 + dy) title sel).2
      = (MapsRedesign.phone F x0 y0 title sel).2 ∧
    MapsRedesign.screen1 F (x0 + dx) (y0 + dy)
      = (MapsRedesign.screen1 F x0 y0).map (Prim.translate dx dy) :=
  ⟨(phone_translate F x0 y0 dx dy title sel).1,
   (phone_translate F x0 y0 dx dy title sel).2,
   screen1_translate F x0 y0 dx dy⟩

/-- C8 witness: radius 100 on a 40 by 40 rect (half-extents 20) is
forwarded unchanged by both helpers. -/
theorem c8_radius_passthrough_witness :
    (MapsRedesign.rr 0 0 40 40 100 none none 1).radiusOf = some 100 ∧
    (MapsFlow.rr 0 0 40 40 100 none none 1).radiusOf = some 100 :=
  c8_radius_passthrough 0 0 40 40 100 (by decide) none none 1
    0 0 40 40 100 none none 1

/-- C10: for each of the two maps generator scripts, the surface content
produced by a run is a function of the font-resolution outcome alone: two
environments that agree on font availability produce identical primitive
lists, whatever their save oracles do, since the drawing pipeline reads
nothing else. -/
theorem c10_determinism (e1 e2 : MapsRedesign.Env) (e3 e4 : MapsFlow.Env)
    (h12 : e1.fontOk = e2.fontOk) (h34 : e3.fontOk = e4.fontOk) :
    MapsRedesign.surface e1 = MapsRedesign.surface e2 ∧
    MapsFlow.surface e3 = MapsFlow.surface e4 := by
  constructor
  · unfold MapsRedesign.surface
    rw [h12]
  · unfold MapsFlow.surface
    rw [h34]

/-- C10 witness: runs whose environments differ only in the save oracle
produce identical surfaces, for both scripts. -/
theorem c10_determinism_witness :
    MapsRedesign.surface ⟨true, fun _ => true⟩
      = MapsRedesign.surface ⟨true, fun _ => false⟩ ∧
    MapsFlow.surface ⟨false, fun _ => true⟩
      = MapsFlow.surface ⟨false, fun _ => false⟩ :=
  c10_determinism ⟨true, fun _ => true⟩ ⟨true, fun _ => false⟩
    ⟨false, fun _ => true⟩ ⟨false, fun _ => false⟩ rfl rfl

end Seline
